import Mathlib

/-!
Verification of the maintenance-email generator (`src/app.py`).

The Python source is shallowly embedded as executable Lean definitions:

* Python `str` values are Lean `String`s; every string operation the program
  uses (`strip`, `lower`, `upper`, `split`, `replace`, `startswith`,
  substring tests) is re-implemented here by structural recursion on the
  underlying character list, so that all definitions evaluate inside the
  kernel.  The re-implementations follow Python semantics for the character
  ranges the program manipulates; Python's additional Unicode whitespace
  classes, underscore digit separators and exponent notation in numeric
  literals are noted where they are not modelled.
* `datetime` instants are minute counts: a naive instant is the number of
  minutes since 0001-01-01 00:00 (proleptic Gregorian), and a UTC instant is
  an `Int` minute count; `datetime`'s year range 1..9999 is enforced exactly
  where the Python code can raise `OverflowError` inside `parse_to_utc`'s
  `try` block.
* Python `set` objects that are only ever observed through `sorted(...)` are
  modelled by the list of inserted elements followed by
  sort-after-deduplication, which produces the same output list.
* fallible code paths (every `try`/`except` and every early `return None`)
  become `Option`.
* The web framework boundary (FastAPI upload objects, byte decoding tiers,
  routes) supplies decoded text to the core; the core functions are modelled
  from their decoded-text inputs on.
-/

/-! ## Python string primitives, modelled on `List Char` -/

/-- Whitespace as stripped by `str.strip()` (ASCII subset; Python also strips
some further Unicode space characters, which the program's inputs do not
contain). -/
def pyWS (c : Char) : Bool :=
  c = ' ' || c = '\t' || c = '\n' || c = '\r' || c = '\x0b' || c = '\x0c'

def stripList (l : List Char) : List Char :=
  ((l.dropWhile pyWS).reverse.dropWhile pyWS).reverse

/-- Model of `str.strip()`. -/
def pyStrip (s : String) : String := ⟨stripList s.data⟩

/-- Model of `str.lower()` (ASCII case mapping, as in the program's data). -/
def pyLower (s : String) : String := ⟨s.data.map Char.toLower⟩

/-- Model of `str.upper()` (ASCII case mapping, as in the program's data). -/
def pyUpper (s : String) : String := ⟨s.data.map Char.toUpper⟩

def isPrefixL : List Char → List Char → Bool
  | [], _ => true
  | _ :: _, [] => false
  | a :: as, b :: bs => a = b && isPrefixL as bs

/-- Model of `str.startswith(pre)`. -/
def pyStartsWith (s pre : String) : Bool := isPrefixL pre.data s.data

def isSubL (pat : List Char) : List Char → Bool
  | [] => isPrefixL pat []
  | c :: rest => isPrefixL pat (c :: rest) || isSubL pat rest

/-- Model of Python's `sub in s` substring test. -/
def pyContainsSub (sub s : String) : Bool := isSubL sub.data s.data

def splitCharList (c : Char) : List Char → List (List Char)
  | [] => [[]]
  | a :: rest =>
    let r := splitCharList c rest
    if a = c then [] :: r
    else
      match r with
      | h :: t => (a :: h) :: t
      | [] => [[a]]

/-- Model of `str.split(sep)` for a one-character separator. -/
def pySplitOnChar (c : Char) (s : String) : List String :=
  (splitCharList c s.data).map (fun l => ⟨l⟩)

/-- Model of `str.replace("\r\n", "\n")` (left-to-right, non-overlapping). -/
def replaceCRLF : List Char → List Char
  | '\r' :: '\n' :: rest => '\n' :: replaceCRLF rest
  | c :: rest => c :: replaceCRLF rest
  | [] => []

/-- Model of `str.replace("UTC", "")` (left-to-right, non-overlapping). -/
def removeUTC : List Char → List Char
  | 'U' :: 'T' :: 'C' :: rest => removeUTC rest
  | c :: rest => c :: removeUTC rest
  | [] => []

/-- Model of `"\r\n" -> "\n"` then `"\r" -> "\n"` from line 29 of the source. -/
def normNewlines (s : String) : String :=
  ⟨(replaceCRLF s.data).map (fun c => if c = '\r' then '\n' else c)⟩

/-- Model of `str.join` (`sep.join(xs)`). -/
def joinWith (sep : String) : List String → String
  | [] => ""
  | x :: rest => rest.foldl (fun acc y => acc ++ sep ++ y) x

def digitsVal (l : List Char) : Nat :=
  l.foldl (fun a c => a * 10 + (c.toNat - 48)) 0

def allDigits (l : List Char) : Bool :=
  match l with
  | [] => false
  | _ => l.all (·.isDigit)

/-! ## Python string ordering (code-point lexicographic), and `sorted(set(...))` -/

/-- Python's `<=` on strings at the character-list level: code-point
lexicographic order. -/
def lexLe : List Char → List Char → Bool
  | [], _ => true
  | _ :: _, [] => false
  | a :: as, b :: bs =>
    if a.toNat < b.toNat then true
    else if b.toNat < a.toNat then false
    else lexLe as bs

/-- Python's `<` on strings at the character-list level. -/
def lexLt : List Char → List Char → Bool
  | [], [] => false
  | [], _ :: _ => true
  | _ :: _, [] => false
  | a :: as, b :: bs =>
    if a.toNat < b.toNat then true
    else if b.toNat < a.toNat then false
    else lexLt as bs

def pyStrLe (s t : String) : Bool := lexLe s.data t.data

def pyStrLt (s t : String) : Bool := lexLt s.data t.data

/-- Model of Python `sorted(s)` for a set `s`: the set is represented by the
list of elements inserted into it, and `sorted` returns the ascending
enumeration of the distinct elements. -/
def sortedSet (l : List String) : List String :=
  (l.dedup).insertionSort (fun a b => pyStrLe a b = true)

instance : IsTotal String (fun a b => pyStrLe a b = true) := by
  constructor
  intro a b
  show lexLe a.data b.data = true ∨ lexLe b.data a.data = true
  generalize a.data = x
  generalize b.data = y
  induction x generalizing y with
  | nil => left; rfl
  | cons a as ih =>
    cases y with
    | nil => right; rfl
    | cons b bs =>
      by_cases h1 : a.toNat < b.toNat
      · left; simp [lexLe, h1]
      · by_cases h2 : b.toNat < a.toNat
        · right; simp [lexLe, h1, h2]
        · rcases ih bs with h | h
          · left; simp [lexLe, h1, h2, h]
          · right; simp [lexLe, h1, h2, h]

instance : IsTrans String (fun a b => pyStrLe a b = true) := by
  constructor
  intro a b c
  show lexLe a.data b.data = true → lexLe b.data c.data = true →
    lexLe a.data c.data = true
  generalize a.data = x
  generalize b.data = y
  generalize c.data = z
  intro h1 h2
  induction x generalizing y z with
  | nil => rfl
  | cons a as ih =>
    cases y with
    | nil => simp [lexLe] at h1
    | cons b bs =>
      cases z with
      | nil => simp [lexLe] at h2
      | cons c cs =>
        simp only [lexLe] at h1 h2 ⊢
        split_ifs at h1 h2 ⊢ with g1 g2 g3 g4 g5 g6 <;>
          first
          | rfl
          | omega
          | (exact ih bs cs h1 h2)


/-! ## Tabular record parser (`parse_uploaded_tsv`, lines 16-71)

The byte-decoding tiers of lines 19-28 (UTF-8, then cp1251, then lossy
Latin-1) live at the upload boundary and always produce a text; the parser is
modelled from that decoded text on.  `csv.reader` is fed one already-split
line per row, so each row is parsed independently here with the reader's
default-dialect quoting state machine (a quoted field that is left
unterminated at the end of a line, which in Python would splice the next line
into the same row, does not arise from the pre-split, blank-stripped lines). -/

/-- One step of `csv.reader`'s default-dialect field scanner over a single
line, with `delimiter="\t"`, `quotechar='"'`, non-strict mode.  The `Nat`
argument is the scanner state: 0 = start of field, 1 = in field,
2 = in quoted field, 3 = just saw a quote inside a quoted field. -/
def csvFields : List Char → Nat → List Char → List String
  | [], _, cur => [⟨cur.reverse⟩]
  | c :: rest, 0, cur =>
    if c = '"' then csvFields rest 2 cur
    else if c = '\t' then ⟨cur.reverse⟩ :: csvFields rest 0 []
    else csvFields rest 1 (c :: cur)
  | c :: rest, 1, cur =>
    if c = '\t' then ⟨cur.reverse⟩ :: csvFields rest 0 []
    else csvFields rest 1 (c :: cur)
  | c :: rest, 2, cur =>
    if c = '"' then csvFields rest 3 cur
    else csvFields rest 2 (c :: cur)
  | c :: rest, _, cur =>
    if c = '"' then csvFields rest 2 (c :: cur)
    else if c = '\t' then ⟨cur.reverse⟩ :: csvFields rest 0 []
    else csvFields rest 1 (c :: cur)

/-- Row produced by `csv.reader` for one input line. -/
def csvSplitLine (s : String) : List String :=
  match s.data with
  | [] => []
  | l => csvFields l 0 []

/-- Lines kept by the loop of lines 31-41: strip, drop blanks, drop `#`
comments unless they contain both `"CID"` and `"Label"`, in which case the
leading hashes are stripped and the line is kept. -/
def keptLines (text : String) : List String :=
  (pySplitOnChar '\n' (normNewlines text)).filterMap (fun ln =>
    let s := pyStrip ln
    if s = "" then none
    else if pyStartsWith s "#" then
      if pyContainsSub "CID" s && pyContainsSub "Label" s then
        some (pyStrip ⟨s.data.dropWhile (fun c => c = '#')⟩)
      else none
    else some s)

def rowsOfText (text : String) : List (List String) :=
  (keptLines text).map csvSplitLine

/-- Header scan of lines 44-48: among the first five rows, find the first one
whose stripped, lower-cased cells contain both `"cid"` and `"label"`; return
the two column indices and the row index. -/
def findHeader : List (List String) → Nat → Option (Nat × Nat × Nat)
  | [], _ => none
  | r :: rest, i =>
    if 5 ≤ i then none
    else
      let low := r.map (fun c => pyLower (pyStrip c))
      if low.contains "cid" && low.contains "label" then
        some (low.indexOf "cid", low.indexOf "label", i)
      else findHeader rest (i + 1)

def reservedTokens : List String := ["ENABLED", "DISABLED", "CID", "LABEL"]

/-- Row extraction of lines 53-64: missing cells degrade to `""`, rows with an
empty trimmed identifier or a reserved-token identifier are skipped. -/
def extractPairs (cidIdx labelIdx : Nat) (rows : List (List String)) :
    List (String × String) :=
  rows.filterMap (fun r =>
    if r = [] then none
    else
      let cid := if cidIdx < r.length then pyStrip (r.getD cidIdx "") else ""
      let label := if labelIdx < r.length then pyStrip (r.getD labelIdx "") else ""
      if cid = "" then none
      else if reservedTokens.contains (pyUpper cid) then none
      else some (cid, label))

/-- Model of `parse_uploaded_tsv` from decoded text on (lines 16-65). -/
def parse_uploaded_tsv (text : String) : List (String × String) :=
  if text = "" then []
  else
    let rows := rowsOfText text
    match findHeader rows 0 with
    | some (ci, li, h) => extractPairs ci li (rows.drop (h + 1))
    | none => extractPairs 0 1 rows

/-- Model of `collect_pairs` (lines 67-71): concatenate the parses of all uploads in
input order. -/
def collect_pairs (files : List String) : List (String × String) :=
  files.foldr (fun f acc => parse_uploaded_tsv f ++ acc) []

/-! ## Identifier classifier (`classify_wl_oc_3poc`, lines 73-88) -/

/-- Display string `f"{cid} ({label})" if label else cid`. -/
def displayOf (cid label : String) : String :=
  if label ≠ "" then cid ++ " (" ++ label ++ ")" else cid

/-- The loop of lines 75-87, with each Python `set` modelled by the list of
elements inserted into it, in insertion order. -/
def classifyCollect : List (String × String) → List String × List String × List String
  | [] => ([], [], [])
  | (cid, label) :: rest =>
    let r := classifyCollect rest
    let up := pyUpper cid
    if pyStartsWith up "OC-900001" then r
    else if pyContainsSub "WLP-" up || pyContainsSub "WL-" up then
      (cid :: r.1, r.2.1, r.2.2)
    else if pyStartsWith up "3POC" then (r.1, r.2.1, displayOf cid label :: r.2.2)
    else if pyStartsWith up "OC" then (r.1, displayOf cid label :: r.2.1, r.2.2)
    else r

/-- Model of `classify_wl_oc_3poc`: returns `(sorted(wl_wlp), sorted(oc_list),
sorted(poc3_list))`. -/
def classify_wl_oc_3poc (pairs : List (String × String)) :
    List String × List String × List String :=
  let r := classifyCollect pairs
  (sortedSet r.1, sortedSet r.2.1, sortedSet r.2.2)

/-! ## Time normalizer (`parse_to_utc` and helpers, lines 92-131)

Instants are minute counts.  `datetime.strptime(..., "%d/%m/%Y %H:%M")` is
modelled field by field with exactly the digit patterns of CPython's
`_strptime` regexes (`%d`: one digit 1-9 or two digits 01-31; `%m`: one digit
1-9 or two digits 01-12; `%Y`: exactly four digits; `%H`: one digit or two
digits 00-23; `%M`: one digit or two digits 00-59), followed by the
`datetime` constructor's range validation.  Splitting the format at its two
literal slashes and one space is faithful because the day, month and year
fields come from `date_str.split("/")` and so contain no slash, and any
whitespace or stray character inside a field makes both the joined-string
regex and the per-field parse fail. -/

def isLeap (y : Nat) : Bool :=
  y % 4 = 0 && (y % 100 ≠ 0 || y % 400 = 0)

def monthLen (y m : Nat) : Nat :=
  match m with
  | 1 => 31
  | 2 => if isLeap y then 29 else 28
  | 3 => 31
  | 4 => 30
  | 5 => 31
  | 6 => 30
  | 7 => 31
  | 8 => 31
  | 9 => 30
  | 10 => 31
  | 11 => 30
  | 12 => 31
  | _ => 0

/-- Days in year `y` strictly before month `m`. -/
def monthCumDays (y m : Nat) : Nat :=
  let base :=
    match m with
    | 1 => 0
    | 2 => 31
    | 3 => 59
    | 4 => 90
    | 5 => 120
    | 6 => 151
    | 7 => 181
    | 8 => 212
    | 9 => 243
    | 10 => 273
    | 11 => 304
    | 12 => 334
    | _ => 0
  if 3 ≤ m ∧ isLeap y then base + 1 else base

/-- Days from 0001-01-01 (day 0) of the proleptic Gregorian calendar. -/
def daysBeforeYear (y : Nat) : Nat :=
  365 * (y - 1) + ((y - 1) / 4 - (y - 1) / 100 + (y - 1) / 400)

def daysFromCivil (y m d : Nat) : Nat :=
  daysBeforeYear y + monthCumDays y m + (d - 1)

/-- Inverse of `daysFromCivil` (standard era-based civil-from-days
computation), used by the `strftime` display formatting. -/
def civilFromDays (g : Nat) : Nat × Nat × Nat :=
  let z := g + 306
  let era := z / 146097
  let doe := z % 146097
  let yoe := (doe - doe / 1460 + doe / 36524 - doe / 146096) / 365
  let y0 := yoe + era * 400
  let doy := doe - (365 * yoe + yoe / 4 - yoe / 100)
  let mp := (5 * doy + 2) / 153
  let d := doy - (153 * mp + 2) / 5 + 1
  let m := if mp < 10 then mp + 3 else mp - 9
  (if m ≤ 2 then y0 + 1 else y0, m, d)

/-- Field `%d`: one digit `1-9` or two digits `01-31`. -/
def parseDayField (s : String) : Option Nat :=
  let l := s.data
  if allDigits l && (l.length = 1 || l.length = 2) then
    let v := digitsVal l
    if 1 ≤ v ∧ v ≤ 31 then some v else none
  else none

/-- Field `%m`: one digit `1-9` or two digits `01-12`. -/
def parseMonthField (s : String) : Option Nat :=
  let l := s.data
  if allDigits l && (l.length = 1 || l.length = 2) then
    let v := digitsVal l
    if 1 ≤ v ∧ v ≤ 12 then some v else none
  else none

/-- Field `%Y`: exactly four digits. -/
def parseYearField (s : String) : Option Nat :=
  let l := s.data
  if allDigits l && l.length = 4 then some (digitsVal l) else none

/-- Field `%H`: one digit, or two digits `00-23`. -/
def parseHourField (s : String) : Option Nat :=
  let l := s.data
  if allDigits l && (l.length = 1 || (l.length = 2 && digitsVal l ≤ 23)) then
    some (digitsVal l)
  else none

/-- Field `%M`: one digit, or two digits `00-59`. -/
def parseMinuteField (s : String) : Option Nat :=
  let l := s.data
  if allDigits l && (l.length = 1 || (l.length = 2 && digitsVal l ≤ 59)) then
    some (digitsVal l)
  else none

/-- Format `"%H:%M"` applied to the whole time string. -/
def parseTimeHM (s : String) : Option (Nat × Nat) :=
  match pySplitOnChar ':' s with
  | [hh, mm] =>
    match parseHourField hh, parseMinuteField mm with
    | some h, some m => some (h, m)
    | _, _ => none
  | _ => none

/-- Model of `datetime.strptime(f"{d}/{m}/{y} {ts}", "%d/%m/%Y %H:%M")` as a
naive minute count, `none` on `ValueError` (pattern failure or the
constructor's month-length and year-range validation). -/
def parseNaiveDT (d m y timeStr : String) : Option Nat :=
  match parseDayField d, parseMonthField m, parseYearField y, parseTimeHM timeStr with
  | some dd, some mm, some yy, some (h, mi) =>
    if 1 ≤ yy ∧ dd ≤ monthLen yy mm then
      some ((daysFromCivil yy mm dd) * 1440 + h * 60 + mi)
    else none
  | _, _, _, _ => none

/-- Model of `int(s)` for the digit strings produced after sign characters are
removed.  Python's `int` also tolerates surrounding whitespace and
underscores between digits; such inputs are not modelled and fall into the
exception path, which the caller maps to the same 0 default. -/
def pyParseIntNat (s : String) : Option Nat :=
  if allDigits s.data then some (digitsVal s.data) else none

/-- Non-negative decimal literal accepted by `float(s)`: `a`, `a.b`, `a.` or
`.b` with at least one digit, returned as (integer part, fraction numerator,
number of fraction digits).  Exponent notation, `inf`/`nan` and underscore
separators are not modelled: `int(inf)`/`int(nan)` raise in Python, and the
others do not occur in UTC-offset strings, so unmodelled forms fall into the
same exception-to-default path. -/
def parseDecimalNN (s : String) : Option (Nat × Nat × Nat) :=
  match pySplitOnChar '.' s with
  | [a] => if allDigits a.data then some (digitsVal a.data, 0, 0) else none
  | [a, b] =>
    if (a.data.all (·.isDigit)) && (b.data.all (·.isDigit)) &&
        (a.data ≠ [] || b.data ≠ []) then
      some (digitsVal a.data, digitsVal b.data, b.data.length)
    else none
  | _ => none

/-- Round-half-to-even of `num / den`, the rounding Python's `round` applies
to the fractional-hour offset arithmetic (modelled in exact rational
arithmetic rather than binary floating point). -/
def roundHalfEven (num den : Nat) : Nat :=
  let q := num / den
  let r := num % den
  if den < 2 * r then q + 1
  else if 2 * r < den then q
  else if q % 2 = 0 then q else q + 1

/-- Model of `int(float(s))` for a signed decimal literal: truncation toward zero. -/
def pyFloatTruncInt (s : String) : Option Int :=
  let p : Int × List Char :=
    match s.data with
    | '+' :: rest => (1, rest)
    | '-' :: rest => (-1, rest)
    | l => (1, l)
  match parseDecimalNN ⟨p.2⟩ with
  | some (ip, _, _) => some (p.1 * ip)
  | none => none

/-- The `offs` cleanup of line 98: strip, drop every `"UTC"`, strip. -/
def cleanOffs (o : String) : String :=
  pyStrip ⟨removeUTC (pyStrip o).data⟩

/-- The offset-minutes computation of lines 103-113; `none` models an
exception escaping to the `except` of line 114.  The sign is taken from a
leading `-` only, and every `+` and `-` is then removed, exactly as in the
source. -/
def parseOffsetCore (offs : String) : Option Int :=
  if offs.data.contains ':' then
    let sgn : Int := if pyStartsWith offs "-" then -1 else 1
    let core : String := ⟨offs.data.filter (fun c => c ≠ '+' && c ≠ '-')⟩
    match pySplitOnChar ':' core with
    | [hh, mm] =>
      match pyParseIntNat hh, pyParseIntNat mm with
      | some h, some m => some (sgn * (h * 60 + m))
      | _, _ => none
    | _ => none
  else if offs.data.contains '.' then
    let sgn : Int := if pyStartsWith offs "-" then -1 else 1
    let core : String := ⟨offs.data.filter (fun c => c ≠ '+' && c ≠ '-')⟩
    match parseDecimalNN core with
    | some (ip, fnum, fdigs) =>
      some (sgn * (ip * 60 + roundHalfEven (fnum * 60) (10 ^ fdigs)))
    | none => none
  else if offs = "" then some 0
  else (pyFloatTruncInt offs).map (· * 60)

/-- Lines 103-115: the parsed offset in minutes, with any exception giving 0. -/
def offsetMinutes (offs : String) : Int :=
  (parseOffsetCore offs).getD 0

/-- First minute outside `datetime`'s representable range (year 10000). -/
def maxUtcMinutes : Nat := daysFromCivil 10000 1 1 * 1440

/-- Lines 99-117 after the empty-field check: split the date, expand a
two-digit year, parse the naive instant, then apply the offset.
`timezone(timedelta(minutes=...))` raises `ValueError` unless the offset is
strictly between -24h and +24h, and `astimezone(timezone.utc)` raises
`OverflowError` outside years 1-9999; both exceptions are caught by the outer
`except` and give `None`. -/
def parseRestDT (ds ts : String) (mins : Int) : Option Int :=
  match pySplitOnChar '/' ds with
  | [d, m, y] =>
    let y2 := if y.data.length = 2 then "20" ++ y else y
    match parseNaiveDT d m y2 ts with
    | some naive =>
      if mins ≤ -1440 ∨ 1440 ≤ mins then none
      else
        let utc : Int := (naive : Int) - mins
        if 0 ≤ utc ∧ utc < (maxUtcMinutes : Int) then some utc else none
    | none => none
  | _ => none

/-- Model of `parse_to_utc` (lines 92-119): UTC instant in minutes, or `None`. -/
def parse_to_utc (date_str time_str utc_offset_str : String) : Option Int :=
  let ds := pyStrip date_str
  let ts := pyStrip time_str
  if ds = "" ∨ ts = "" then none
  else parseRestDT ds ts (offsetMinutes (cleanOffs utc_offset_str))

def pad2 (n : Nat) : String :=
  ⟨[Nat.digitChar (n / 10 % 10), Nat.digitChar (n % 10)]⟩

def pad4 (n : Nat) : String :=
  ⟨[Nat.digitChar (n / 1000 % 10), Nat.digitChar (n / 100 % 10),
    Nat.digitChar (n / 10 % 10), Nat.digitChar (n % 10)]⟩

/-- Model of `fmt_date_utc` (lines 121-122): `strftime("%d/%m/%Y")` of the instant, or
`""` for an absent instant. -/
def fmt_date_utc : Option Int → String
  | none => ""
  | some t =>
    let c := civilFromDays (t.toNat / 1440)
    pad2 c.2.2 ++ "/" ++ pad2 c.2.1 ++ "/" ++ pad4 c.1

/-- Model of `fmt_time_utc` (lines 124-125): `strftime("%H:%M")` of the instant, or
`""` for an absent instant. -/
def fmt_time_utc : Option Int → String
  | none => ""
  | some t =>
    let r := t.toNat % 1440
    pad2 (r / 60) ++ ":" ++ pad2 (r % 60)

/-- Rendering of a clamped (non-negative) minute count, lines 128-131. -/
def humanizeNat (n : Nat) : String :=
  let h := n / 60
  let m := n % 60
  if h ≠ 0 ∧ m ≠ 0 then toString h ++ "h " ++ toString m ++ "m"
  else if h ≠ 0 then toString h ++ "h"
  else toString m ++ "m"

/-- Model of `humanize_minutes` (lines 127-131): `divmod(max(mins or 0, 0), 60)` then
render.  The `or 0` only converts a `None` argument to 0; every call site
passes an `int`, so the argument is an `Int` here and `max` does the
clamping. -/
def humanize_minutes (mins : Int) : String :=
  humanizeNat (max mins 0).toNat

/-! ## Email composer (`build_email`, lines 135-221) -/

def zero_aliases : List String :=
  ["0", "0m", "0min", "0 minutes", "0mins", "0h", "0 hr", "0 hrs"]

/-- Lines 152-161: resolve the final downtime text from the override string
and the computed duration (present exactly when both instants parsed). -/
def downtimeFinal (override_downtime : String) (calcMins : Option Int) : String :=
  let override := pyLower (pyStrip override_downtime)
  if zero_aliases.contains override then "0"
  else if override ≠ "" then pyStrip override_downtime
  else
    match calcMins with
    | some m => humanize_minutes m
    | none => "[specify]"

/-- Lines 146-150: the reassigned `end_utc` and `calc_downtime_mins`.  Both
instants are whole minutes, so `total_seconds() // 60` is the exact minute
difference.  Line 149's `end_utc += timedelta(days=1)` is NOT inside any
`try`: when the shifted end would pass `datetime`'s maximum (land in year
10000, i.e. reach `maxUtcMinutes`), Python raises an uncaught
`OverflowError` that escapes `build_email`; that exceptional outcome is
`none` here, and propagates to the result of `build_email`. -/
def wrapCalc (su eu : Option Int) : Option (Option Int × Option Int) :=
  match su, eu with
  | some s, some e =>
    if e < s then
      if (maxUtcMinutes : Int) ≤ e + 1440 then none
      else some (some (e + 1440), some (e + 1440 - s))
    else some (some e, some (e - s))
  | _, _ => some (eu, none)

/-- Join in the style of `", ".join(x for x in xs if x)`, that skips empty segments. -/
def joinNonEmpty (sep : String) (xs : List String) : String :=
  joinWith sep (xs.filter (fun x => x ≠ ""))

/-- Model of `str.strip(", ")`: remove every leading and trailing comma or space. -/
def stripCommaSpace (s : String) : String :=
  ⟨((s.data.dropWhile (fun c => c = ',' || c = ' ')).reverse.dropWhile
      (fun c => c = ',' || c = ' ')).reverse⟩

/-- Lines 167-171: the date/time bracket of the subject. -/
def subjectDt (sdd edd stu etu : String) : String :=
  stripCommaSpace (joinNonEmpty ", "
    [joinNonEmpty " - " [sdd, edd], joinNonEmpty " - " [stu, etu], "UTC+0"])

/-- Line 173: the subject line, from the four display strings. -/
def subjectLine (jira pop equip sdd edd stu etu : String) : String :=
  pyStrip ("Planned Network Maintenance – [" ++ pyStrip jira ++ "] [" ++
    pyStrip pop ++ " / " ++ pyStrip equip ++ "] – [" ++
    subjectDt sdd edd stu etu ++ "]")

/-- Lines 175-181: the purpose block. -/
def purposeBlock (presets : List String) (free : String) : String :=
  let ps := (presets.map pyStrip).filter (fun p => p ≠ "") ++
    (if pyStrip free ≠ "" then [pyStrip free] else [])
  if ps ≠ [] then joinWith "; " ps else "[Enter purpose here]"

def indentBlock (xs : List String) : String :=
  joinWith "\n" (xs.map (fun x => "  " ++ x))

/-- Lines 183-190: the affected-services text. -/
def impactedText (wl oc poc : List String) : String :=
  let blocks :=
    (if wl ≠ [] then ["WL / WLP:\n" ++ indentBlock wl] else []) ++
    (if oc ≠ [] then ["OC:\n" ++ indentBlock oc] else []) ++
    (if poc ≠ [] then ["3POC:\n" ++ indentBlock poc] else [])
  if blocks ≠ [] then joinWith "\n\n" blocks else "(none detected)"

/-- Lines 192-193: the PoP/devices/line location text. -/
def popEquipLine (pop equip line : String) : String :=
  pyStrip pop ++ " / " ++ pyStrip equip ++
    (if pyStrip line ≠ "" then " / " ++ pyStrip line else "")

/-- Lines 195-198: the expected-impact text. -/
def impactBlock (downtime_final : String) : String :=
  if zero_aliases.contains (pyLower downtime_final) || downtime_final = "0" then
    "No service interruption is anticipated."
  else "Downtime: " ++ downtime_final

/-- Lines 200-219: the body template. -/
def bodyText (pel sdd stu edd etu pb it ib : String) : String :=
  "Dear Team,\n\nAs part of our ongoing efforts to improve the reliability and performance of our network, we will be carrying out planned maintenance as outlined below:\n\nPoP/Devices/LINE:\n"
    ++ pel ++
    "\n\nMaintenance Window (UTC+0):\nStart: " ++ sdd ++ " " ++ stu ++
    "\nEnd:   " ++ edd ++ " " ++ etu ++
    "\n\nPurpose of Maintenance:\n" ++ pb ++
    "\n\nAffected Customers/Services:\n" ++ it ++
    "\n\nExpected Impact:\n" ++ ib ++ "\n"

structure EmailOut where
  subject : String
  body : String
  calculated_downtime : String
deriving DecidableEq

/-- Model of `build_email` (lines 135-221), with uploads given as decoded
texts.  `none` is the uncaught `OverflowError` from line 149's wraparound
shift, which escapes `build_email` (and is only caught by the route's
catch-all in `api_preview`): in that case the program returns no subject, no
body and no calculated downtime. -/
def build_email (jira_ref pop equipment line : String)
    (start_date start_time end_date end_time : String)
    (utc_single override_downtime : String)
    (purpose_presets : List String) (purpose_free : String)
    (files : List String) : Option EmailOut :=
  let pairs := collect_pairs files
  let cls := classify_wl_oc_3poc pairs
  let start_utc := parse_to_utc start_date start_time utc_single
  match wrapCalc start_utc (parse_to_utc end_date end_time utc_single) with
  | none => none
  | some ec =>
    let end_utc := ec.1
    let calcMins := ec.2
    let dtf := downtimeFinal override_downtime calcMins
    let sdd := fmt_date_utc start_utc
    let edd := fmt_date_utc end_utc
    let stu := fmt_time_utc start_utc
    let etu := fmt_time_utc end_utc
    let subject := subjectLine jira_ref pop equipment sdd edd stu etu
    let pb := purposeBlock purpose_presets purpose_free
    let it := impactedText cls.1 cls.2.1 cls.2.2
    let pel := popEquipLine pop equipment line
    let ib := impactBlock dtf
    let body := bodyText pel sdd stu edd etu pb it ib
    let cd := match calcMins with | some m => humanize_minutes m | none => ""
    some ⟨subject, body, cd⟩

/-! ## Display-field extraction (lines 163-166 as a unit, for claims about
what the rendered dates and times depend on) -/

/-- The four display strings of lines 163-166: formatted from the parsed UTC
instants, with the end instant taken after the wraparound reassignment of
line 149.  `none` when line 149 raises and nothing is displayed at all. -/
def displayFields (sd st ed et off : String) :
    Option (String × String × String × String) :=
  let su := parse_to_utc sd st off
  match wrapCalc su (parse_to_utc ed et off) with
  | none => none
  | some ec =>
    some (fmt_date_utc su, fmt_date_utc ec.1, fmt_time_utc su, fmt_time_utc ec.1)

/-! ## Spec-side definitions

Each of the following definitions is written from the wording of a claim in
the specification (not from the source), to be compared against the source
embedding above. -/

inductive SpecCat
  | wl
  | oc
  | poc3
deriving DecidableEq

/-- Spec wording of the per-record classification (claim C1): first-match-wins
precedence on the upper-cased identifier: (1) prefix `"OC-900001"` excludes
the record; (2) else containing `"WLP-"` or `"WL-"` puts the raw identifier
alone into WL/WLP; (3) else prefix `"3POC"` into 3POC; (4) else prefix `"OC"`
into OC, with display `"{identifier} ({label})"` when the label is non-empty
and the plain identifier otherwise; (5) else dropped. -/
def specClassifyRecord (cid label : String) : Option (SpecCat × String) :=
  let up := pyUpper cid
  if pyStartsWith up "OC-900001" then none
  else if pyContainsSub "WLP-" up || pyContainsSub "WL-" up then
    some (SpecCat.wl, cid)
  else if pyStartsWith up "3POC" then
    some (SpecCat.poc3, if label ≠ "" then cid ++ " (" ++ label ++ ")" else cid)
  else if pyStartsWith up "OC" then
    some (SpecCat.oc, if label ≠ "" then cid ++ " (" ++ label ++ ")" else cid)
  else none

def specPick (cat : SpecCat) (p : String × String) : Option String :=
  match specClassifyRecord p.1 p.2 with
  | some (k, d) => if k = cat then some d else none
  | none => none

/-- Spec wording (claim C1): the display strings a category collects,
deduplicated and sorted ascending. -/
def specCategoryList (cat : SpecCat) (pairs : List (String × String)) : List String :=
  sortedSet (pairs.filterMap (specPick cat))

/-- Claim C5 as stated: `"XhYm"` (no separator between the two components)
when both components are non-zero. -/
def specHumanizeClaimC5 (n : Nat) : String :=
  let h := n / 60
  let m := n % 60
  if h ≠ 0 ∧ m ≠ 0 then toString h ++ "h" ++ toString m ++ "m"
  else if h ≠ 0 then toString h ++ "h"
  else toString m ++ "m"

/-- Claim C5 amended: `"Xh Ym"`, with a single space between the hour and
minute components, when both are non-zero. -/
def specHumanizeSpacedC5 (n : Nat) : String :=
  let h := n / 60
  let m := n % 60
  if h ≠ 0 ∧ m ≠ 0 then toString h ++ "h " ++ toString m ++ "m"
  else if h ≠ 0 then toString h ++ "h"
  else toString m ++ "m"

/-- Claim C6 as stated, for a table without a detected header: every parsed
row is a data row, column 0 is the identifier and column 1 the label, short
rows degrade to empty-string cells, and a row is skipped only when its
trimmed identifier is empty. -/
def specExtractClaimC6 (rows : List (List String)) : List (String × String) :=
  rows.filterMap (fun r =>
    let cid := pyStrip (r.getD 0 "")
    let label := pyStrip (r.getD 1 "")
    if cid = "" then none else some (cid, label))

/-- Claim C6 amended: additionally, a row whose upper-cased trimmed
identifier is one of the reserved tokens ENABLED, DISABLED, CID, LABEL is
skipped. -/
def specExtractAmendedC6 (rows : List (List String)) : List (String × String) :=
  rows.filterMap (fun r =>
    let cid := pyStrip (r.getD 0 "")
    let label := pyStrip (r.getD 1 "")
    if cid = "" then none
    else if reservedTokens.contains (pyUpper cid) then none
    else some (cid, label))

/-- Claim C7's range rule: `start - end` with the dash and the missing side
omitted when one side is blank, and the whole segment omitted when both are
blank. -/
def specRangeC7 (a b : String) : String :=
  if a ≠ "" ∧ b ≠ "" then a ++ " - " ++ b
  else if a ≠ "" then a
  else b

/-- Claim C7's trailing-strip: remove a trailing run of `", "` characters. -/
def stripTrailingCommaSpace (s : String) : String :=
  ⟨(s.data.reverse.dropWhile (fun c => c = ',' || c = ' ')).reverse⟩

/-- Claim C7 as stated: the subject line built from the literal field values
and the resolved display dates/times. -/
def specSubjectClaimC7 (jira pop equip : String) (su eu : Option Int) : String :=
  let dt := stripTrailingCommaSpace (joinNonEmpty ", "
    [specRangeC7 (fmt_date_utc su) (fmt_date_utc eu),
     specRangeC7 (fmt_time_utc su) (fmt_time_utc eu), "UTC+0"])
  "Planned Network Maintenance – [" ++ jira ++ "] [" ++ pop ++ " / " ++
    equip ++ "] – [" ++ dt ++ "]"

/-! ## Theorems -/

set_option maxRecDepth 100000

theorem charEq_of_toNat_eq {a b : Char} (h : a.toNat = b.toNat) : a = b :=
  Char.ext (UInt32.ext h)

theorem lexLt_of_lexLe_ne :
    ∀ x y : List Char, lexLe x y = true → x ≠ y → lexLt x y = true := by
  intro x
  induction x with
  | nil =>
    intro y h hne
    cases y with
    | nil => exact absurd rfl hne
    | cons b bs => rfl
  | cons a as ih =>
    intro y h hne
    cases y with
    | nil => simp [lexLe] at h
    | cons b bs =>
      simp only [lexLe] at h
      simp only [lexLt]
      by_cases g1 : a.toNat < b.toNat
      · rw [if_pos g1]
      · rw [if_neg g1] at h ⊢
        by_cases g2 : b.toNat < a.toNat
        · rw [if_pos g2] at h
          exact absurd h (by decide)
        · rw [if_neg g2] at h ⊢
          have hab : a = b := charEq_of_toNat_eq (by omega)
          subst hab
          apply ih bs h
          intro hh
          apply hne
          rw [hh]

theorem pyStrLt_of_le_ne {s t : String} (h : pyStrLe s t = true) (hne : s ≠ t) :
    pyStrLt s t = true := by
  rcases s with ⟨ls⟩
  rcases t with ⟨lt2⟩
  refine lexLt_of_lexLe_ne ls lt2 h (fun hh => hne ?_)
  rw [hh]

theorem sortedSet_sorted (l : List String) :
    (sortedSet l).Pairwise (fun a b => pyStrLe a b = true) :=
  List.sorted_insertionSort _ l.dedup

theorem sortedSet_nodup (l : List String) : (sortedSet l).Nodup :=
  ((List.perm_insertionSort _ _).symm.nodup (List.nodup_dedup l))

/-- Output of the modelled `sorted(set(...))` is strictly ascending in the
Python string order. -/

theorem sortedSet_strict (l : List String) :
    (sortedSet l).Pairwise (fun a b => pyStrLt a b = true) := by
  have h := List.Pairwise.and (sortedSet_sorted l) (sortedSet_nodup l)
  exact h.imp (fun hab => pyStrLt_of_le_ne hab.1 hab.2)

theorem classifyCollect_eq (pairs : List (String × String)) :
    classifyCollect pairs =
      (pairs.filterMap (specPick SpecCat.wl),
       pairs.filterMap (specPick SpecCat.oc),
       pairs.filterMap (specPick SpecCat.poc3)) := by
  induction pairs with
  | nil => rfl
  | cons p rest ih =>
    obtain ⟨cid, label⟩ := p
    simp only [classifyCollect, List.filterMap_cons, specPick, specClassifyRecord,
      ih, displayOf]
    split_ifs <;> simp

/-- C1: the classifier assigns each record by first-match-wins precedence on
the upper-cased identifier — `OC-900001` prefix excluded, else `WLP-`/`WL-`
containment to WL/WLP with the raw identifier, else `3POC` prefix, else `OC`
prefix with display `"{identifier} ({label})"` for a non-empty label — and
each category list is deduplicated and sorted (strictly) ascending in the
code-point lexicographic order. -/
theorem claim_C1_classifier (pairs : List (String × String)) :
    classify_wl_oc_3poc pairs =
      (specCategoryList SpecCat.wl pairs, specCategoryList SpecCat.oc pairs,
        specCategoryList SpecCat.poc3 pairs) ∧
    (classify_wl_oc_3poc pairs).1.Pairwise (fun a b => pyStrLt a b = true) ∧
    (classify_wl_oc_3poc pairs).2.1.Pairwise (fun a b => pyStrLt a b = true) ∧
    (classify_wl_oc_3poc pairs).2.2.Pairwise (fun a b => pyStrLt a b = true) := by
  refine ⟨?_, sortedSet_strict _, sortedSet_strict _, sortedSet_strict _⟩
  simp only [classify_wl_oc_3poc, specCategoryList, classifyCollect_eq]

theorem pyLower_eq_empty_iff (s : String) : pyLower s = "" ↔ s = "" := by
  rcases s with ⟨l⟩
  constructor
  · intro h
    have hd : l.map Char.toLower = [] := congrArg String.data h
    have hl : l = [] := by simpa using hd
    rw [hl]
  · intro h
    rw [h]
    rfl

/-- C2: the final downtime token is resolved in priority order — a zero-alias
override (case-insensitively, after trimming) gives the literal `"0"`; else a
non-empty override is used verbatim after trimming; else a computed duration
is humanized; else the placeholder `"[specify]"` — and the override
`"0 Hrs"` yields `"0"`. -/
theorem claim_C2_downtime_resolution (o : String) (c : Option Int) :
    (zero_aliases.contains (pyLower (pyStrip o)) = true →
      downtimeFinal o c = "0") ∧
    (zero_aliases.contains (pyLower (pyStrip o)) = false → pyStrip o ≠ "" →
      downtimeFinal o c = pyStrip o) ∧
    (pyStrip o = "" → ∀ m, c = some m →
      downtimeFinal o c = humanize_minutes m) ∧
    (pyStrip o = "" → c = none → downtimeFinal o c = "[specify]") ∧
    downtimeFinal "0 Hrs" c = "0" := by
  refine ⟨?_, ?_, ?_, ?_, ?_⟩
  · intro h
    simp only [downtimeFinal, h]
    rfl
  · intro h hne
    have h2 : pyLower (pyStrip o) ∉ zero_aliases := by simpa using h
    have hne2 : pyLower (pyStrip o) ≠ "" := fun hh =>
      hne ((pyLower_eq_empty_iff (pyStrip o)).mp hh)
    simp [downtimeFinal, h2, hne2]
  · intro he m hm
    have he2 : pyLower (pyStrip o) = "" := by rw [he]; rfl
    have h3 : ¬ (("" : String) ∈ zero_aliases) := by decide
    simp [downtimeFinal, he2, h3, hm]
  · intro he hn
    have he2 : pyLower (pyStrip o) = "" := by rw [he]; rfl
    have h3 : ¬ (("" : String) ∈ zero_aliases) := by decide
    simp [downtimeFinal, he2, h3, hn]
  · have h : zero_aliases.contains (pyLower (pyStrip "0 Hrs")) = true := by decide
    simp only [downtimeFinal, h]
    rfl

theorem claim_C2_witness :
    downtimeFinal "0 Hrs" (some 45) = "0" ∧
    downtimeFinal " 2 hours " (some 45) = "2 hours" ∧
    downtimeFinal "" (some 90) = humanize_minutes 90 ∧
    downtimeFinal "" none = "[specify]" :=
  ⟨(claim_C2_downtime_resolution "0 Hrs" (some 45)).1 (by decide),
   (claim_C2_downtime_resolution " 2 hours " (some 45)).2.1 (by decide) (by decide),
   (claim_C2_downtime_resolution "" (some 90)).2.2.1 (by decide) 90 rfl,
   (claim_C2_downtime_resolution "" none).2.2.2.1 (by decide) rfl⟩

/-- C3 counterexample: at start 31/12/9999 23:59 and end 31/12/9999 23:00
(offset +0) both instants are present and the end is strictly earlier, yet
the 24-hour shift of line 149 overflows `datetime`'s maximum and raises an
uncaught `OverflowError`: no duration is computed or reported, contradicting
the claim's universal wraparound-and-report rule. -/
theorem claim_C3_counterexample :
    parse_to_utc "31/12/9999" "23:59" "+0" = some ((maxUtcMinutes : Int) - 1) ∧
    parse_to_utc "31/12/9999" "23:00" "+0" = some ((maxUtcMinutes : Int) - 60) ∧
    ((maxUtcMinutes : Int) - 60) < ((maxUtcMinutes : Int) - 1) ∧
    wrapCalc (some ((maxUtcMinutes : Int) - 1))
      (some ((maxUtcMinutes : Int) - 60)) = none := by
  refine ⟨by decide, by decide, by decide, by decide⟩

/-- C3 amended: when the end instant is strictly earlier than the start
instant and the 24-hour shift stays inside `datetime`'s range, 1440 minutes
are added to the end before the duration is taken; when the shift would pass
the maximum `datetime` (end instant in the last representable day), the
builder raises an uncaught `OverflowError` and no duration is reported at
all; any duration that is reported is the rendering of a natural (never
negative) minute count; and the two concrete windows from the specification
give 23h (1380 minutes) and 45 minutes respectively. -/
theorem claim_C3_duration_wraparound :
    (∀ s e : Int, e < s → e + 1440 < (maxUtcMinutes : Int) →
      wrapCalc (some s) (some e) = some (some (e + 1440), some (e + 1440 - s))) ∧
    (∀ s e : Int, e < s → (maxUtcMinutes : Int) ≤ e + 1440 →
      wrapCalc (some s) (some e) = none) ∧
    (∀ m : Int, ∃ n : Nat, humanize_minutes m = humanizeNat n) ∧
    (wrapCalc (parse_to_utc "01/01/2024" "10:00" "+0")
        (parse_to_utc "01/01/2024" "09:00" "+0")).map (fun p => p.2) =
      some (some 1380) ∧
    humanize_minutes 1380 = "23h" ∧
    (wrapCalc (parse_to_utc "01/01/2024" "23:30" "+0")
        (parse_to_utc "02/01/2024" "00:15" "+0")).map (fun p => p.2) =
      some (some 45) ∧
    humanize_minutes 45 = "45m" := by
  refine ⟨?_, ?_, ?_, by decide, by decide, by decide, by decide⟩
  · intro s e h hlt
    simp [wrapCalc, h, not_le.mpr hlt]
  · intro s e h hge
    simp [wrapCalc, h, hge]
  · intro m
    exact ⟨(max m 0).toNat, rfl⟩

theorem claim_C3_witness :
    wrapCalc (some 1) (some 0) = some (some 1440, some 1439) :=
  claim_C3_duration_wraparound.1 1 0 (by decide) (by decide)

/-- C4: the time normalizer is total — for every input it returns either an
instant or an explicit absence; an empty (trimmed) date or time string gives
absence; and an offset string whose offset computation fails (or is empty
after cleanup) is treated exactly like offset `"0"` rather than failing. -/
theorem claim_C4_time_normalizer_total (d t o : String) :
    ((parse_to_utc d t o).isSome = true ∨ parse_to_utc d t o = none) ∧
    (pyStrip d = "" ∨ pyStrip t = "" → parse_to_utc d t o = none) ∧
    (parseOffsetCore (cleanOffs o) = none ∨ cleanOffs o = "" →
      parse_to_utc d t o = parse_to_utc d t "0") := by
  refine ⟨?_, ?_, ?_⟩
  · cases h : parse_to_utc d t o with
    | none => exact Or.inr rfl
    | some v => exact Or.inl (by simp [h])
  · intro h
    simp only [parse_to_utc]
    rw [if_pos h]
  · intro h
    have h1 : offsetMinutes (cleanOffs o) = 0 := by
      rcases h with h | h
      · simp [offsetMinutes, h]
      · rw [h]; decide
    have h0 : offsetMinutes (cleanOffs "0") = 0 := by decide
    simp only [parse_to_utc, h1, h0]

theorem claim_C4_witness :
    parse_to_utc "01/01/2024" "10:00" "zzz" = parse_to_utc "01/01/2024" "10:00" "0" ∧
    (parse_to_utc "01/01/2024" "10:00" "zzz").isSome = true ∧
    parse_to_utc "" "10:00" "+0" = none :=
  ⟨(claim_C4_time_normalizer_total "01/01/2024" "10:00" "zzz").2.2
      (Or.inl (by decide)),
   by decide,
   (claim_C4_time_normalizer_total "" "10:00" "+0").2.1 (Or.inl (by decide))⟩

/-- C5 counterexample: at 90 minutes the code renders `"1h 30m"`, with a
space between the components, not the claimed `"XhYm"` concatenation
`"1h30m"`. -/
theorem claim_C5_counterexample :
    humanize_minutes 90 = "1h 30m" ∧ humanize_minutes 90 ≠ specHumanizeClaimC5 90 := by
  constructor
  · decide
  · decide

/-- C5 amended: for every non-negative minute count the humanizer renders
`"Xh Ym"` (hour component, a space, minute component) when both components
are non-zero, `"Xh"` when only the hour component is non-zero, and `"Ym"`
otherwise, including `"0m"` for zero. -/
theorem claim_C5_humanizer (n : Nat) :
    humanize_minutes (n : Int) = specHumanizeSpacedC5 n := by
  have h : ((max (n : Int) 0).toNat) = n := by
    rw [max_eq_left (Int.natCast_nonneg n), Int.toNat_natCast]
  simp only [humanize_minutes, h]
  rfl

theorem filterMap_ext {α β : Type} (f g : α → Option β) (h : ∀ a, f a = g a) :
    ∀ l : List α, l.filterMap f = l.filterMap g := by
  intro l
  induction l with
  | nil => rfl
  | cons a rest ih => simp [List.filterMap_cons, h a, ih]

theorem extractPairs_default_eq (rows : List (List String)) :
    extractPairs 0 1 rows = specExtractAmendedC6 rows := by
  unfold extractPairs specExtractAmendedC6
  apply filterMap_ext
  intro r
  cases r with
  | nil => rfl
  | cons a rs =>
    cases rs with
    | nil => rfl
    | cons b bs => simp

/-- C6 amended: for a table whose first five parsed rows contain no header
row, all parsed rows are data rows with column 0 the identifier and column 1
the label, missing cells degrade to the empty string, and a row is skipped
exactly when its trimmed identifier is empty or its upper-cased trimmed
identifier is one of the reserved tokens ENABLED, DISABLED, CID, LABEL;
parsing is total and never fails. -/
theorem claim_C6_no_header_parsing (text : String)
    (h : findHeader (rowsOfText text) 0 = none) :
    parse_uploaded_tsv text = specExtractAmendedC6 (rowsOfText text) := by
  by_cases ht : text = ""
  · subst ht
    decide
  · simp only [parse_uploaded_tsv, if_neg ht, h]
    exact extractPairs_default_eq _

/-- C6 counterexample: the input table `"ENABLED\nOC-1\tLBL"` has no header
row in its first five parsed rows, yet the row `ENABLED` — whose trimmed
identifier is non-empty — is skipped by the code, contradicting the claim
that rows are skipped only when the identifier is empty after trimming. -/
theorem claim_C6_counterexample :
    findHeader (rowsOfText "ENABLED\nOC-1\tLBL") 0 = none ∧
    parse_uploaded_tsv "ENABLED\nOC-1\tLBL" ≠
      specExtractClaimC6 (rowsOfText "ENABLED\nOC-1\tLBL") := by
  constructor
  · decide
  · decide

theorem claim_C6_witness :
    parse_uploaded_tsv "ENABLED\nOC-1\tLBL" =
      specExtractAmendedC6 (rowsOfText "ENABLED\nOC-1\tLBL") :=
  claim_C6_no_header_parsing "ENABLED\nOC-1\tLBL" (by decide)

/-- The first character of `s` exists and falsifies `p` (used to show that
left-stripping is a no-op). -/
def headNot (p : Char → Bool) (s : String) : Prop :=
  ∃ c r, s.data = c :: r ∧ p c = false

theorem headNot_append (p : Char → Bool) (a b : String) (h : headNot p a) :
    headNot p (a ++ b) := by
  obtain ⟨c, r, h1, h2⟩ := h
  exact ⟨c, r ++ b.data, by rw [String.data_append, h1]; rfl, h2⟩

theorem headNot_ne_empty (p : Char → Bool) (s : String) (h : headNot p s) :
    s ≠ "" := by
  obtain ⟨c, r, h1, _⟩ := h
  intro he
  rw [he] at h1
  exact List.noConfusion h1

theorem digitChar_safe :
    ∀ k < 10, (Nat.digitChar k = ',' || Nat.digitChar k = ' ') = false := by
  decide

def notCS (c : Char) : Bool := c = ',' || c = ' '

theorem pad2_headNot (n : Nat) : headNot notCS (pad2 n) :=
  ⟨Nat.digitChar (n / 10 % 10), [Nat.digitChar (n % 10)], rfl,
    digitChar_safe _ (Nat.mod_lt _ (by decide))⟩

theorem fmt_date_headNot (t : Int) : headNot notCS (fmt_date_utc (some t)) := by
  simp only [fmt_date_utc]
  exact headNot_append _ _ _ (headNot_append _ _ _ (headNot_append _ _ _
    (headNot_append _ _ _ (pad2_headNot _))))

theorem fmt_time_headNot (t : Int) : headNot notCS (fmt_time_utc (some t)) := by
  simp only [fmt_time_utc]
  exact headNot_append _ _ _ (headNot_append _ _ _ (pad2_headNot _))

theorem joinTwo_eq_specRange (a b : String) :
    joinNonEmpty " - " [a, b] = specRangeC7 a b := by
  by_cases h1 : a = "" <;> by_cases h2 : b = "" <;>
    simp [joinNonEmpty, specRangeC7, h1, h2, joinWith]

theorem joinWith_headNot (p : Char → Bool) (sep x : String) (xs : List String)
    (hx : headNot p x) : headNot p (joinWith sep (x :: xs)) := by
  induction xs generalizing x with
  | nil => exact hx
  | cons y ys ih =>
    show headNot p (joinWith sep ((x ++ sep ++ y) :: ys))
    exact ih _ (headNot_append _ _ _ (headNot_append _ _ _ hx))

theorem specRange_fmt_headNot (f : Option Int → String)
    (hf : ∀ t : Int, headNot notCS (f (some t))) (hnone : f none = "")
    (su eu : Option Int) :
    specRangeC7 (f su) (f eu) = "" ∨ headNot notCS (specRangeC7 (f su) (f eu)) := by
  cases su with
  | none =>
    cases eu with
    | none => left; rw [hnone]; rfl
    | some t =>
      right
      have h2 : f (some t) ≠ "" := headNot_ne_empty _ _ (hf t)
      simp only [specRangeC7, hnone]
      rw [if_neg (by simp), if_neg (by simp)]
      exact hf t
  | some t =>
    have h1 : f (some t) ≠ "" := headNot_ne_empty _ _ (hf t)
    cases eu with
    | none =>
      right
      simp only [specRangeC7, hnone]
      rw [if_neg (by simp [h1]), if_pos h1]
      exact hf t
    | some t2 =>
      right
      have h2 : f (some t2) ≠ "" := headNot_ne_empty _ _ (hf t2)
      simp only [specRangeC7]
      rw [if_pos ⟨h1, h2⟩]
      exact headNot_append _ _ _ (headNot_append _ _ _ (hf t))

theorem stripCS_eq_trailing (s : String)
    (h : headNot (fun c => c = ',' || c = ' ') s) :
    stripCommaSpace s = stripTrailingCommaSpace s := by
  obtain ⟨c, r, h1, h2⟩ := h
  rcases s with ⟨ls⟩
  have h1b : ls = c :: r := h1
  show String.mk _ = String.mk _
  congr 1
  rw [h1b]
  simp [List.dropWhile_cons, h2]

theorem pyStrip_noop (s : String) (h1 : headNot pyWS s)
    (h2 : ∃ d l, s.data = l ++ [d] ∧ pyWS d = false) :
    pyStrip s = s := by
  obtain ⟨c, r, hc, hcw⟩ := h1
  obtain ⟨d, l, hd, hdw⟩ := h2
  rcases s with ⟨ls⟩
  have hc2 : ls = c :: r := hc
  have hd2 : ls = l ++ [d] := hd
  show String.mk (stripList ls) = String.mk ls
  congr 1
  have e1 : ls.dropWhile pyWS = ls := by
    rw [hc2]
    simp [List.dropWhile_cons, hcw]
  have e2 : ls.reverse.dropWhile pyWS = ls.reverse := by
    rw [hd2]
    simp [List.reverse_append, List.dropWhile_cons, hdw]
  unfold stripList
  rw [e1, e2, List.reverse_reverse]

theorem subjectDt_eq_claim (su eu : Option Int) :
    subjectDt (fmt_date_utc su) (fmt_date_utc eu) (fmt_time_utc su)
        (fmt_time_utc eu) =
      stripTrailingCommaSpace (joinNonEmpty ", "
        [specRangeC7 (fmt_date_utc su) (fmt_date_utc eu),
         specRangeC7 (fmt_time_utc su) (fmt_time_utc eu), "UTC+0"]) := by
  unfold subjectDt
  rw [joinTwo_eq_specRange, joinTwo_eq_specRange]
  apply stripCS_eq_trailing
  have hd := specRange_fmt_headNot fmt_date_utc fmt_date_headNot rfl su eu
  have ht := specRange_fmt_headNot fmt_time_utc fmt_time_headNot rfl su eu
  have hU : headNot notCS "UTC+0" := ⟨'U', "TC+0".data, rfl, by decide⟩
  rcases hd with hd | hd
  · rcases ht with ht | ht
    · rw [hd, ht]
      have he : joinNonEmpty ", " ["", "", "UTC+0"] = "UTC+0" := by decide
      rw [he]
      exact hU
    · rw [hd]
      have htne := headNot_ne_empty _ _ ht
      have he : joinNonEmpty ", "
          ["", specRangeC7 (fmt_time_utc su) (fmt_time_utc eu), "UTC+0"] =
          joinWith ", "
            (specRangeC7 (fmt_time_utc su) (fmt_time_utc eu) :: ["UTC+0"]) := by
        simp [joinNonEmpty, List.filter_cons, htne]
      rw [he]
      exact joinWith_headNot _ _ _ _ ht
  · have hdne := headNot_ne_empty _ _ hd
    have he : joinNonEmpty ", "
        [specRangeC7 (fmt_date_utc su) (fmt_date_utc eu),
         specRangeC7 (fmt_time_utc su) (fmt_time_utc eu), "UTC+0"] =
        joinWith ", "
          (specRangeC7 (fmt_date_utc su) (fmt_date_utc eu) ::
            List.filter (fun x => x ≠ "")
              [specRangeC7 (fmt_time_utc su) (fmt_time_utc eu), "UTC+0"]) := by
      simp [joinNonEmpty, List.filter_cons, hdne]
    rw [he]
    exact joinWith_headNot _ _ _ _ hd

/-- C7 counterexample: with `jira_ref = " J "` (and blank dates/times) the
code produces the bracket `[J]` — the field is trimmed before insertion — so
the subject is not the claimed template applied to the literal field
values. -/
theorem claim_C7_counterexample :
    subjectLine " J " "P" "E" (fmt_date_utc none) (fmt_date_utc none)
        (fmt_time_utc none) (fmt_time_utc none) ≠
      specSubjectClaimC7 " J " "P" "E" none none := by decide

/-- C7 amended: the subject line is the claimed template — the bracket joins
the date-range, the time-range and the literal `"UTC+0"` with `", "` skipping
empty segments with trailing `", "` stripped, and each range omits its dash
and missing side — applied to the jira/pop/equipment fields after trimming;
and the concrete example produces the claimed final bracket. -/
theorem claim_C7_subject_format (jira pop equip : String) (su eu : Option Int) :
    subjectLine jira pop equip (fmt_date_utc su) (fmt_date_utc eu)
        (fmt_time_utc su) (fmt_time_utc eu) =
      specSubjectClaimC7 (pyStrip jira) (pyStrip pop) (pyStrip equip) su eu ∧
    (build_email "JIRA-1" "POP1" "RTR1" "" "01/01/2024" "10:00" "01/01/2024"
        "11:00" "+0" "" [] "" []).map (fun r => r.subject) =
      some "Planned Network Maintenance – [JIRA-1] [POP1 / RTR1] – [01/01/2024 - 01/01/2024, 10:00 - 11:00, UTC+0]" := by
  constructor
  · have hdt := subjectDt_eq_claim su eu
    show pyStrip ("Planned Network Maintenance – [" ++ pyStrip jira ++ "] [" ++
        pyStrip pop ++ " / " ++ pyStrip equip ++ "] – [" ++
        subjectDt (fmt_date_utc su) (fmt_date_utc eu) (fmt_time_utc su)
          (fmt_time_utc eu) ++ "]") =
      "Planned Network Maintenance – [" ++ pyStrip jira ++ "] [" ++
        pyStrip pop ++ " / " ++ pyStrip equip ++ "] – [" ++
        stripTrailingCommaSpace (joinNonEmpty ", "
          [specRangeC7 (fmt_date_utc su) (fmt_date_utc eu),
           specRangeC7 (fmt_time_utc su) (fmt_time_utc eu), "UTC+0"]) ++ "]"
    rw [hdt]
    apply pyStrip_noop
    · exact headNot_append _ _ _ (headNot_append _ _ _ (headNot_append _ _ _
        (headNot_append _ _ _ (headNot_append _ _ _ (headNot_append _ _ _
          (headNot_append _ _ _ (headNot_append _ _ _
            ⟨'P', _, rfl, by decide⟩)))))))
    · exact ⟨']', _, by rw [String.data_append], by decide⟩
  · decide

/-- C8: the body's impact statement is the fixed no-interruption sentence
exactly when the resolved downtime equals `"0"` or matches a zero alias
case-insensitively, and is `"Downtime: {downtime}"` otherwise. -/
theorem claim_C8_impact_sentence (df : String) :
    (impactBlock df = "No service interruption is anticipated." ↔
      (pyLower df ∈ zero_aliases ∨ df = "0")) ∧
    (¬(pyLower df ∈ zero_aliases ∨ df = "0") →
      impactBlock df = "Downtime: " ++ df) := by
  have hne : ("Downtime: " ++ df) ≠ "No service interruption is anticipated." := by
    intro h
    have hd := congrArg String.data h
    rw [String.data_append] at hd
    have h2 : 'D' :: ("owntime: ".data ++ df.data) =
        'N' :: "o service interruption is anticipated.".data := hd
    injection h2 with hhead _
    exact absurd hhead (by decide)
  have hcond : ∀ _ : ¬(pyLower df ∈ zero_aliases ∨ df = "0"),
      impactBlock df = "Downtime: " ++ df := by
    intro h
    push_neg at h
    unfold impactBlock
    rw [if_neg]
    simp [h.1, h.2]
  refine ⟨⟨fun h => ?_, fun h => ?_⟩, hcond⟩
  · by_contra hc
    rw [hcond hc] at h
    exact hne h
  · unfold impactBlock
    rw [if_pos]
    rcases h with h | h
    · simp [h]
    · simp [h]

theorem claim_C8_witness :
    impactBlock "0" = "No service interruption is anticipated." ∧
    impactBlock "2h 30m" = "Downtime: 2h 30m" :=
  ⟨(claim_C8_impact_sentence "0").1.mpr (Or.inr rfl),
   (claim_C8_impact_sentence "2h 30m").2 (by decide)⟩

/-- C9 counterexample: at start 31/12/9999 23:59 and end 31/12/9999 23:00
(offset +0) both instants are resolvable, yet `build_email` raises the
uncaught `OverflowError` of line 149 and returns nothing: there is no third
return value there, contradicting the claim's for-every-input rule. -/
theorem claim_C9_counterexample :
    (parse_to_utc "31/12/9999" "23:59" "+0").isSome = true ∧
    (parse_to_utc "31/12/9999" "23:00" "+0").isSome = true ∧
    build_email "" "" "" "" "31/12/9999" "23:59" "31/12/9999" "23:00" "+0"
      "overridden" [] "" [] = none := by
  refine ⟨by decide, by decide, by decide⟩

/-- C9 amended: whenever the email builder returns at all (the wraparound
shift of line 149 does not overflow `datetime`'s range), its third value is
the humanized computed duration when both instants resolved and the empty
string otherwise, independently of the downtime override; with everything
blank it is the empty string while the body's downtime resolves to
`"[specify]"`. -/
theorem claim_C9_calculated_downtime
    (jira pop equip line sd st ed et off o : String)
    (pp : List String) (pf : String) (fs : List String) :
    (build_email jira pop equip line sd st ed et off o pp pf fs).map
        (fun r => r.calculated_downtime) =
      (wrapCalc (parse_to_utc sd st off) (parse_to_utc ed et off)).map
        (fun p =>
          match p.2 with
          | some m => humanize_minutes m
          | none => "") ∧
    (∀ o2 : String,
      (build_email jira pop equip line sd st ed et off o pp pf fs).map
          (fun r => r.calculated_downtime) =
      (build_email jira pop equip line sd st ed et off o2 pp pf fs).map
          (fun r => r.calculated_downtime)) ∧
    (build_email "" "" "" "" "" "" "" "" "+0" "" [] "" []).map
        (fun r => r.calculated_downtime) = some "" ∧
    (wrapCalc (parse_to_utc "" "" "+0") (parse_to_utc "" "" "+0")).map
        (fun p => downtimeFinal "" p.2) = some "[specify]" ∧
    (build_email "" "" "" "" "" "" "" "" "+0" "" [] "" []).map
        (fun r => pyContainsSub "Downtime: [specify]" r.body) = some true := by
  refine ⟨?_, ?_, by decide, by decide, by decide⟩
  · cases hw : wrapCalc (parse_to_utc sd st off) (parse_to_utc ed et off) with
    | none => simp [build_email, hw]
    | some ec => simp [build_email, hw]
  · intro o2
    cases hw : wrapCalc (parse_to_utc sd st off) (parse_to_utc ed et off) with
    | none => simp [build_email, hw]
    | some ec => simp [build_email, hw]

/-- C10: all dates and times shown in the output are rendered from the parsed
UTC instants (the end instant after the wraparound shift), not from the raw
form fields — they depend on the raw fields only through the parsed instants
(including whether anything is displayed at all: an overflowing wraparound
shift displays nothing), a side whose parse fails renders blank even when the
raw fields are non-empty, a non-zero offset shows the UTC-converted values,
and the wraparound rule shifts the displayed end date by a day. -/
theorem claim_C10_display_from_instants :
    (∀ sd1 st1 ed1 et1 o1 sd2 st2 ed2 et2 o2 : String,
      parse_to_utc sd1 st1 o1 = parse_to_utc sd2 st2 o2 →
      parse_to_utc ed1 et1 o1 = parse_to_utc ed2 et2 o2 →
      displayFields sd1 st1 ed1 et1 o1 = displayFields sd2 st2 ed2 et2 o2) ∧
    (∀ sd st ed et off : String, parse_to_utc sd st off = none →
      (displayFields sd st ed et off).map (fun d => d.1) = some "" ∧
      (displayFields sd st ed et off).map (fun d => d.2.2.1) = some "") ∧
    (∀ (jira pop equip line sd st ed et off o : String) (pp : List String)
        (pf : String) (fs : List String),
      (build_email jira pop equip line sd st ed et off o pp pf fs).map
          (fun r => r.subject) =
        (displayFields sd st ed et off).map
          (fun d => subjectLine jira pop equip d.1 d.2.1 d.2.2.1 d.2.2.2)) ∧
    ((displayFields "99/99/2024" "10:00" "01/01/2024" "10:00" "+0").map
        (fun d => d.1) = some "" ∧ "99/99/2024" ≠ "") ∧
    (displayFields "01/01/2024" "01:00" "01/01/2024" "02:00" "+2").map
        (fun d => d.1) = some "31/12/2023" ∧
    (displayFields "01/01/2024" "01:00" "01/01/2024" "02:00" "+2").map
        (fun d => d.2.2.1) = some "23:00" ∧
    (displayFields "01/01/2024" "10:00" "01/01/2024" "09:00" "+0").map
        (fun d => d.2.1) = some "02/01/2024" := by
  refine ⟨?_, ?_, ?_, by decide, by decide, by decide, by decide⟩
  · intro sd1 st1 ed1 et1 o1 sd2 st2 ed2 et2 o2 h1 h2
    simp only [displayFields, h1, h2]
  · intro sd st ed et off h
    cases he : parse_to_utc ed et off with
    | none =>
      simp [displayFields, h, he, wrapCalc]
      exact ⟨rfl, rfl⟩
    | some v =>
      simp [displayFields, h, he, wrapCalc]
      exact ⟨rfl, rfl⟩
  · intro jira pop equip line sd st ed et off o pp pf fs
    cases hw : wrapCalc (parse_to_utc sd st off) (parse_to_utc ed et off) with
    | none => simp [build_email, displayFields, hw]
    | some ec => simp [build_email, displayFields, hw]

theorem claim_C10_witness :
    displayFields "01/01/2024" "10:00" "01/01/2024" "11:00" "+0" =
      displayFields "1/1/24" "10:00" "1/1/24" "11:00" "UTC+0" :=
  claim_C10_display_from_instants.1 _ _ _ _ _ _ _ _ _ _ (by decide) (by decide)
